import Mathlib

/-!
Shallow embedding of the hospital-operations delegation core of this
repository: the router `orchestrateRequest` and the executor
`executeAgentTask` from services/agentService.ts, and the turn controller
(`addAuditLog`, `handleSend`) together with its session state from the App
component. The generation backend, the JSON decoder and the wall clock are
external to the program; the observable outcomes of the backend call and of
JSON decoding are therefore parameters of the embedded functions, and the
nondeterministic id/timestamp fields (Date.now, Math.random) are omitted
from the embedded records since no operation of the core reads them back.
-/

/-- String value of the TS enum member AgentType.ORCHESTRATOR. -/
def AgentType.ORCHESTRATOR : String := "Central Manager"

/-- String value of the TS enum member AgentType.ADMISSION. -/
def AgentType.ADMISSION : String := "PatientAdmissionAgent"

/-- String value of the TS enum member AgentType.SCHEDULING. -/
def AgentType.SCHEDULING : String := "AppointmentSchedulingAgent"

/-- String value of the TS enum member AgentType.PHARMACY. -/
def AgentType.PHARMACY : String := "PharmacyManagementAgent"

/-- String value of the TS enum member AgentType.BILLING. -/
def AgentType.BILLING : String := "BillingAndFinanceAgent"

/-- The enumerated specialist identifiers, in declaration order of the enum
(the orchestrator identifier is deliberately not among them). -/
def specialistAgents : List String :=
  [AgentType.ADMISSION, AgentType.SCHEDULING, AgentType.PHARMACY, AgentType.BILLING]

/-- Observable outcome of the generateContent call made by orchestrateRequest,
composed with the JSON decoding its body performs: the call can throw a
transport or provider error, return a response whose text is undefined or
empty, return text that JSON.parse rejects, or return text that parses to an
object whose agent and reasoning fields are as given (none models an absent
field, which reads back as undefined through the unchecked TS cast). -/
inductive OrchOutcome where
  | throwsError : OrchOutcome
  | noText : OrchOutcome
  | malformedJson : OrchOutcome
  | json : Option String → Option String → OrchOutcome
  deriving DecidableEq, Repr

/-- Result record of orchestrateRequest. The agent field is an Option because
the TS code copies result.agent out of the parsed JSON without any runtime
validation, so it can be any string or undefined. -/
structure Delegation where
  agent : Option String
  reasoning : Option String
  deriving DecidableEq, Repr

/-- PHASE 1, ORCHESTRATOR (services/agentService.ts, orchestrateRequest).
Every failure inside the try block, a thrown backend call, a response with
no text, or unparsable JSON, lands in the catch and yields the fixed
fallback delegation to the admission agent; well-formed JSON is returned
field-for-field with no membership check on the agent. -/
def orchestrateRequest (_userQuery : String) (outcome : OrchOutcome) : Delegation :=
  match outcome with
  | OrchOutcome.json a r => { agent := a, reasoning := r }
  | OrchOutcome.throwsError =>
      { agent := some AgentType.ADMISSION, reasoning := some "Fallback due to error." }
  | OrchOutcome.noText =>
      { agent := some AgentType.ADMISSION, reasoning := some "Fallback due to error." }
  | OrchOutcome.malformedJson =>
      { agent := some AgentType.ADMISSION, reasoning := some "Fallback due to error." }

/-- Web reference carried by a grounding chunk (uri and title). -/
structure WebRef where
  uri : String
  title : String
  deriving DecidableEq, Repr

/-- One grounding chunk of the response; chunks without a web reference
model chunks whose web field is absent. -/
structure GroundingChunk where
  web : Option WebRef
  deriving DecidableEq, Repr

/-- Arguments of a generate_document function call as the code reads them
(call.args cast to any and accessed field-for-field). -/
structure DocArgs where
  docType : String
  title : String
  fields : List (String × String)
  complianceNote : String
  deriving DecidableEq, Repr

/-- A function call reported on the backend response. -/
structure FunctionCall where
  name : String
  args : DocArgs
  deriving DecidableEq, Repr

/-- The parts of a successful generateContent response that executeAgentTask
reads: the optional grounding chunks of the first candidate, the optional
list of function calls, and the optional generated text. -/
structure ExecResponse where
  groundingChunks : Option (List GroundingChunk)
  functionCalls : Option (List FunctionCall)
  text : Option String
  deriving DecidableEq, Repr

/-- Observable outcome of the generateContent call made by executeAgentTask:
either the call throws (transport or provider error) or it returns a
response. -/
inductive ExecOutcome where
  | transportError : ExecOutcome
  | ok : ExecResponse → ExecOutcome
  deriving DecidableEq, Repr

/-- GeneratedDocumentData record of types.ts. The type field is a String
because the runtime value is copied from the unvalidated tool-call
arguments. -/
structure GeneratedDocumentData where
  title : String
  type : String
  content : List (String × String)
  footer : String
  deriving DecidableEq, Repr

/-- A citation source extracted from grounding metadata (uri and title). -/
structure CitationSource where
  uri : String
  title : String
  deriving DecidableEq, Repr

/-- Result record of executeAgentTask. The groundingSources field is an
Option because the catch branch returns an object without that property. -/
structure ExecResult where
  text : String
  document : Option GeneratedDocumentData
  groundingSources : Option (List CitationSource)
  deriving DecidableEq, Repr

/-- JS truthiness fallback, modelling the expression (x || d) for an
optional string: undefined and the empty string are falsy. -/
def jsOr (x : Option String) (d : String) : String :=
  match x with
  | none => d
  | some t => if t = "" then d else t

/-- JS template-literal rendering of a possibly-undefined string value. -/
def jsStr : Option String → String
  | some s => s
  | none => "undefined"

/-- A tool entry passed to the backend call: either a functionDeclarations
entry carrying the declared function names, or the googleSearch entry. -/
inductive Tool where
  | functionDeclarations : List String → Tool
  | googleSearch : Tool
  deriving DecidableEq, Repr

/-- Persona instruction of the admission case of the switch. -/
def admissionInstruction : String :=
  "Role: PatientAdmissionAgent. \n      Task: Handle patient registration and EHR updates. \n      Compliance: Ensure HIPAA compliance. Use \x27generate_document\x27 if the user needs an Admission Form."

/-- Persona instruction of the scheduling case of the switch. -/
def schedulingInstruction : String :=
  "Role: AppointmentSchedulingAgent. \n      Task: Check doctor availability and schedule appointments. \n      Tools: Use Google Search to find doctor schedules or general medical dept info if implied."

/-- Persona instruction of the pharmacy case of the switch. -/
def pharmacyInstruction : String :=
  "Role: PharmacyManagementAgent. \n      Task: Check drug interactions and issue prescriptions.\n      Tools: Use Google Search to verify drug contraindications. Use \x27generate_document\x27 to issue a PRESCRIPTION."

/-- Persona instruction of the billing case of the switch. -/
def billingInstruction : String :=
  "Role: BillingAndFinanceAgent (RCM Focus). \n      Task: Manage invoices, insurance claims, and financial audits.\n      Tone: Professional, precise, audit-ready.\n      Tools: You MUST use \x27generate_document\x27 if the user asks for an invoice (Faktur) or claim status report."

/-- Persona instruction of the default case of the switch. -/
def genericInstruction : String :=
  "You are a helpful hospital assistant."

/-- The persona and tool dispatch of executeAgentTask: the switch over the
agent argument that sets systemInstruction and tools. The agent is an
Option String since the unvalidated delegation result flows in here; a TS
switch on an enum compares the raw string values, so the embedding compares
against the enum member values and everything else takes the default case
(tools keeps its initializer, the empty list). -/
def agentConfig (agent : Option String) : String × List Tool :=
  if agent = some AgentType.ADMISSION then
    (admissionInstruction, [Tool.functionDeclarations ["generate_document"]])
  else if agent = some AgentType.SCHEDULING then
    (schedulingInstruction, [Tool.googleSearch])
  else if agent = some AgentType.PHARMACY then
    (pharmacyInstruction, [Tool.googleSearch, Tool.functionDeclarations ["generate_document"]])
  else if agent = some AgentType.BILLING then
    (billingInstruction, [Tool.functionDeclarations ["generate_document"]])
  else
    (genericInstruction, [])

/-- Citation extraction of executeAgentTask, hoisted to a named definition:
map each chunk to its web field, filter out the falsy (absent) ones, and
map the survivors to uri-title records; an absent chunk list yields the
initializer, the empty list. -/
def extractSources (gc : Option (List GroundingChunk)) : List CitationSource :=
  match gc with
  | some chunks =>
      ((chunks.map GroundingChunk.web).filterMap id).map
        (fun w => { uri := w.uri, title := w.title })
  | none => []

/-- Fixed apologetic reply of the catch branch of executeAgentTask. -/
def executionErrorText : String :=
  "I encountered a system error processing your request. Please contact IT support."

/-- PHASE 2, SUB-AGENT EXECUTION (services/agentService.ts,
executeAgentTask). The persona and tool configuration and the composed
prompt only feed the backend call, whose observable outcome is the backend
argument; the interpretation of the response is embedded branch-for-branch,
including the dead fix-up that substitutes a default text when a document
was produced with empty text. -/
def executeAgentTask (agent : Option String) (userQuery : String) (history : String)
    (backend : ExecOutcome) : ExecResult :=
  let _config := agentConfig agent
  let _contents := "Context: " ++ history ++ "\n\nCurrent Request: " ++ userQuery
  match backend with
  | ExecOutcome.transportError =>
      { text := executionErrorText, document := none, groundingSources := none }
  | ExecOutcome.ok response =>
      let sources : List CitationSource := extractSources response.groundingChunks
      let interp : String × Option GeneratedDocumentData :=
        match response.functionCalls with
        | some (call :: _) =>
            if call.name = "generate_document" then
              ("I have generated the " ++ call.args.docType ++
                 " document for you. Please verify the details below.",
               some { title := call.args.title, type := call.args.docType,
                      content := call.args.fields, footer := call.args.complianceNote })
            else
              ("", none)
        | _ => (jsOr response.text "Processed request.", none)
      let outputText : String :=
        if interp.1 = "" ∧ interp.2.isSome then "Document generated." else interp.1
      { text := outputText, document := interp.2, groundingSources := some sources }

/-- ChatMessage record of types.ts (id and timestamp omitted, see the module
comment). The sender is an Option String: the user label and the agent enum
values are strings, and an undefined delegation agent can flow in. -/
structure ChatMessage where
  role : String
  text : String
  sender : Option String
  documentData : Option GeneratedDocumentData
  groundingSources : Option (List CitationSource)
  deriving DecidableEq, Repr

/-- AuditLogEntry record of types.ts (id and timestamp omitted, see the
module comment). -/
structure AuditLogEntry where
  agent : Option String
  action : String
  status : String
  deriving DecidableEq, Repr

/-- The session state owned by the App component: the message list, the
input box, the in-flight flag, the active-agent indicator and the audit
log. -/
structure AppState where
  messages : List ChatMessage
  input : String
  isLoading : Bool
  currentAgent : Option String
  auditLogs : List AuditLogEntry
  deriving DecidableEq, Repr

/-- JS String.prototype.trim of the input guard, modelled executably over
the character list: leading and trailing whitespace removed. -/
def jsTrim (s : String) : String :=
  { data := ((s.data.dropWhile Char.isWhitespace).reverse.dropWhile Char.isWhitespace).reverse }

/-- The transcript rendering of the prior messages, as handleSend composes
it: sender-colon-text lines joined by newlines, order preserved. -/
def renderHistory (msgs : List ChatMessage) : String :=
  String.intercalate "\n" (msgs.map (fun m => jsStr m.sender ++ ": " ++ m.text))

/-- addAuditLog of the App component: appends one entry with the given agent
and action and the hard-coded SUCCESS status. -/
def addAuditLog (agent : Option String) (action : String) (s : AppState) : AppState :=
  { s with auditLogs := s.auditLogs ++ [{ agent := agent, action := action, status := "SUCCESS" }] }

/-- Welcome message text of the initial state of the App component. -/
def welcomeText : String :=
  "Welcome to MHO (Manage Hospital Operations). I am the Central Manager. How can I assist you today? (e.g., \x27Check my insurance claim\x27, \x27Schedule a cardiology appointment\x27)"

/-- Initial session state of the App component. -/
def initState : AppState :=
  { messages := [{ role := "model", text := welcomeText,
                   sender := some AgentType.ORCHESTRATOR,
                   documentData := none, groundingSources := none }],
    input := "",
    isLoading := false,
    currentAgent := some AgentType.ORCHESTRATOR,
    auditLogs := [] }

/-- handleSend of the App component, for one user turn. The two backend
outcomes of the turn are parameters. The guard returns the state unchanged
when the trimmed input is empty or a turn is already in flight. Both service
functions catch all their errors internally and the remaining statements of
the try block cannot throw, so the catch branch of handleSend is unreachable
in this model and has no arm. The history context is rendered from the
messages value captured before the user message was appended, as the React
closure does. -/
def handleSend (orch : OrchOutcome) (exec : ExecOutcome) (s : AppState) : AppState :=
  if jsTrim s.input = "" ∨ s.isLoading = true then s
  else
    let userMsg : ChatMessage :=
      { role := "user", text := s.input, sender := some "User",
        documentData := none, groundingSources := none }
    let s1 : AppState := { s with messages := s.messages ++ [userMsg], input := "", isLoading := true }
    let s2 : AppState := { s1 with currentAgent := some AgentType.ORCHESTRATOR }
    let delegation : Delegation := orchestrateRequest userMsg.text orch
    let s3 : AppState :=
      addAuditLog (some AgentType.ORCHESTRATOR) ("Delegated to " ++ jsStr delegation.agent) s2
    let s4 : AppState := { s3 with currentAgent := delegation.agent }
    let historyContext : String := renderHistory s.messages
    let response : ExecResult := executeAgentTask delegation.agent userMsg.text historyContext exec
    let agentMsg : ChatMessage :=
      { role := "model", text := response.text, sender := delegation.agent,
        documentData := response.document, groundingSources := response.groundingSources }
    let s5 : AppState := { s4 with messages := s4.messages ++ [agentMsg] }
    let s6 : AppState :=
      addAuditLog delegation.agent
        (match response.document with
         | some d => "Generated " ++ d.type
         | none => "Responded to query") s5
    { s6 with isLoading := false }

/-- One user turn of a session: the typed input together with the two
backend outcomes of that turn. -/
structure TurnInput where
  input : String
  orch : OrchOutcome
  exec : ExecOutcome
  deriving DecidableEq, Repr

/-- Runs one turn: the input box receives the typed text and handleSend
fires. -/
def runTurn (t : TurnInput) (s : AppState) : AppState :=
  handleSend t.orch t.exec { s with input := t.input }

/-- Runs a session: the given turns in order, from the given state. -/
def runTurns (ts : List TurnInput) (s : AppState) : AppState :=
  ts.foldl (fun st t => runTurn t st) s

/-- Modelled from the spec: the specification-side description of citation
extraction, written directly from its words, the uri-title pairs of exactly
those chunks that carry a web reference, in their original order, chunks
without a web reference dropped. Compared against the code-side extraction
in the refinement theorem. -/
def specSources : List GroundingChunk → List CitationSource
  | [] => []
  | c :: cs =>
      match c.web with
      | some w => { uri := w.uri, title := w.title } :: specSources cs
      | none => specSources cs

/-- The confirmation template of the document branch is never the empty
string, whatever docType the tool call carried. -/
theorem confirmTemplate_ne_empty (d : String) :
    ("I have generated the " ++ d ++
      " document for you. Please verify the details below.") ≠ "" := by
  intro h
  have h2 := congrArg String.length h
  simp [String.length_append] at h2
  exact absurd h2.1.1 (by decide)

/-- The JS fallback expression is nonempty whenever its default is. -/
theorem jsOr_ne_empty (x : Option String) (d : String) (hd : d ≠ "") :
    jsOr x d ≠ "" := by
  cases x with
  | none => simpa [jsOr] using hd
  | some t =>
      by_cases ht : t = "" <;> simp [jsOr, ht, hd]

/-- Evaluation of executeAgentTask on a response whose first function call
is the document tool. -/
theorem executeAgentTask_doc (agent : Option String) (q h : String)
    (gc : Option (List GroundingChunk)) (args : DocArgs) (rest : List FunctionCall)
    (tx : Option String) :
    executeAgentTask agent q h
        (ExecOutcome.ok
          { groundingChunks := gc,
            functionCalls := some ({ name := "generate_document", args := args } :: rest),
            text := tx }) =
      { text := "I have generated the " ++ args.docType ++
          " document for you. Please verify the details below.",
        document := some { title := args.title, type := args.docType,
                           content := args.fields, footer := args.complianceNote },
        groundingSources := some (extractSources gc) } := by
  have hne := confirmTemplate_ne_empty args.docType
  simp [executeAgentTask, hne]

/-- Evaluation of executeAgentTask on a response carrying no function call
(the field is absent or the list is empty): the reply is the backend text
with the JS fallback, no document. -/
theorem executeAgentTask_no_call (agent : Option String) (q h : String)
    (gc : Option (List GroundingChunk)) (fc : Option (List FunctionCall))
    (tx : Option String)
    (hfc : fc = none ∨ fc = some []) :
    executeAgentTask agent q h
        (ExecOutcome.ok { groundingChunks := gc, functionCalls := fc, text := tx }) =
      { text := jsOr tx "Processed request.", document := none,
        groundingSources := some (extractSources gc) } := by
  have hx : jsOr tx "Processed request." ≠ "" :=
    jsOr_ne_empty tx "Processed request." (by decide)
  rcases hfc with h1 | h1 <;> subst h1 <;> simp [executeAgentTask, hx]

/-- The groundingSources field of a non-throwing executeAgentTask run is
always the extraction of the grounding chunks of the response. -/
theorem executeAgentTask_groundingSources (agent : Option String) (q h : String)
    (r : ExecResponse) :
    (executeAgentTask agent q h (ExecOutcome.ok r)).groundingSources =
      some (extractSources r.groundingChunks) := rfl

/-- Code-side citation extraction agrees with the spec-side recursive
description. -/
theorem extractSources_eq_specSources (chunks : List GroundingChunk) :
    extractSources (some chunks) = specSources chunks := by
  induction chunks with
  | nil => rfl
  | cons c cs ih =>
      cases hw : c.web <;>
        simp [extractSources, specSources, hw] <;>
        simpa [extractSources] using ih

/-- C1 counterexample: a well-formed backend JSON response naming an agent
outside the enumerated specialist set is returned verbatim by
orchestrateRequest, so classify can emit a string outside the set. -/
theorem c1_unvalidated_agent_cex :
    orchestrateRequest "Check my insurance claim"
        (OrchOutcome.json (some "UnknownAgent") (some "why")) =
      { agent := some "UnknownAgent", reasoning := some "why" } ∧
    "UnknownAgent" ∉ specialistAgents :=
  ⟨rfl, by decide⟩

/-- C1 amended: orchestrateRequest returns the fixed fallback delegation to
the admission agent (a member of the specialist set) whenever the backend
call throws, returns no text, or returns malformed JSON; but a well-formed
JSON response is passed through field-for-field with no validation, so in
that case the returned agent is whatever string (or absent value) the JSON
carried, which need not lie in the specialist set. -/
theorem c1_router_output (q : String) :
    (∀ a r, orchestrateRequest q (OrchOutcome.json a r) = { agent := a, reasoning := r }) ∧
    orchestrateRequest q OrchOutcome.throwsError =
      { agent := some AgentType.ADMISSION, reasoning := some "Fallback due to error." } ∧
    orchestrateRequest q OrchOutcome.noText =
      { agent := some AgentType.ADMISSION, reasoning := some "Fallback due to error." } ∧
    orchestrateRequest q OrchOutcome.malformedJson =
      { agent := some AgentType.ADMISSION, reasoning := some "Fallback due to error." } ∧
    AgentType.ADMISSION ∈ specialistAgents :=
  ⟨fun _ _ => rfl, rfl, rfl, rfl, by decide⟩

/-- C2 counterexample: a backend response whose first function call has a
name other than generate_document yields an empty reply text even though
both a function call and backend text are present, so the reply is not
nonempty for every combination. -/
theorem c2_unknown_call_empty_reply_cex :
    (executeAgentTask (some AgentType.SCHEDULING) "Find a doctor" "history"
        (ExecOutcome.ok
          { groundingChunks := none,
            functionCalls := some [{ name := "web_search",
                                     args := { docType := "", title := "",
                                               fields := [], complianceNote := "" } }],
            text := some "Here is what I found." })).text = "" := rfl

/-- C2 amended: for every backend response from which executeAgentTask
returns without a caught error, the reply text is nonempty provided the
response carries no function call (field absent or empty list) or its first
function call is the document tool; a first function call with any other
name yields an empty reply. -/
theorem c2_reply_nonempty :
    (∀ (agent : Option String) (q h : String) (gc : Option (List GroundingChunk))
        (tx : Option String),
       (executeAgentTask agent q h
           (ExecOutcome.ok { groundingChunks := gc, functionCalls := none,
                             text := tx })).text ≠ "") ∧
    (∀ (agent : Option String) (q h : String) (gc : Option (List GroundingChunk))
        (tx : Option String),
       (executeAgentTask agent q h
           (ExecOutcome.ok { groundingChunks := gc, functionCalls := some [],
                             text := tx })).text ≠ "") ∧
    (∀ (agent : Option String) (q h : String) (gc : Option (List GroundingChunk))
        (args : DocArgs) (rest : List FunctionCall) (tx : Option String),
       (executeAgentTask agent q h
           (ExecOutcome.ok
             { groundingChunks := gc,
               functionCalls := some ({ name := "generate_document", args := args } :: rest),
               text := tx })).text ≠ "") := by
  refine ⟨?_, ?_, ?_⟩
  · intro agent q h gc tx
    rw [executeAgentTask_no_call agent q h gc none tx (Or.inl rfl)]
    exact jsOr_ne_empty tx "Processed request." (by decide)
  · intro agent q h gc tx
    rw [executeAgentTask_no_call agent q h gc (some []) tx (Or.inr rfl)]
    exact jsOr_ne_empty tx "Processed request." (by decide)
  · intro agent q h gc args rest tx
    rw [executeAgentTask_doc agent q h gc args rest tx]
    exact confirmTemplate_ne_empty args.docType

/-- C3 confirmed: when the first function call of the response is named
generate_document, the result carries a document built field-for-field from
the call arguments (docType to type, title to title, fields to content,
complianceNote to footer) and the reply is the fixed confirmation template
naming the docType; the result does not depend on the function calls after
the first, which are ignored. -/
theorem c3_document_call (agent : Option String) (q h : String)
    (gc : Option (List GroundingChunk)) (args : DocArgs) (rest : List FunctionCall)
    (tx : Option String) :
    executeAgentTask agent q h
        (ExecOutcome.ok
          { groundingChunks := gc,
            functionCalls := some ({ name := "generate_document", args := args } :: rest),
            text := tx }) =
      { text := "I have generated the " ++ args.docType ++
          " document for you. Please verify the details below.",
        document := some { title := args.title, type := args.docType,
                           content := args.fields, footer := args.complianceNote },
        groundingSources := some (extractSources gc) } :=
  executeAgentTask_doc agent q h gc args rest tx

/-- C4 confirmed: when the backend call of orchestrateRequest throws, the
exception is not propagated and the result is the designated fallback, the
admission agent with the rationale marking the fallback. -/
theorem c4_classify_transport_fallback (q : String) :
    orchestrateRequest q OrchOutcome.throwsError =
      { agent := some AgentType.ADMISSION, reasoning := some "Fallback due to error." } := rfl

/-- C5 confirmed: when the backend call of executeAgentTask throws, the
exception is not propagated and the result is the fixed apologetic text
with no document and no grounding sources. -/
theorem c5_run_transport_apology (agent : Option String) (q h : String) :
    executeAgentTask agent q h ExecOutcome.transportError =
      { text := "I encountered a system error processing your request. Please contact IT support.",
        document := none, groundingSources := none } := rfl

/-- C8 confirmed: for every chunk sequence attached to the response, the
returned groundingSources are exactly the uri-title pairs of the chunks
that carry a web reference, in their original order, chunks without a web
reference dropped; in particular the spec example with chunks a, no-web, b
yields exactly the pair list a, b. -/
theorem c8_citation_extraction :
    (∀ (agent : Option String) (q h : String) (chunks : List GroundingChunk)
        (fc : Option (List FunctionCall)) (tx : Option String),
       (executeAgentTask agent q h
           (ExecOutcome.ok { groundingChunks := some chunks, functionCalls := fc,
                             text := tx })).groundingSources =
         some (specSources chunks)) ∧
    specSources [{ web := some { uri := "a", title := "A" } }, { web := none },
                 { web := some { uri := "b", title := "B" } }] =
      [{ uri := "a", title := "A" }, { uri := "b", title := "B" }] := by
  refine ⟨?_, by decide⟩
  intro agent q h chunks fc tx
  rw [executeAgentTask_groundingSources]
  rw [extractSources_eq_specSources]

set_option maxRecDepth 8192 in
/-- C9 confirmed: the persona and tool dispatch is total over the specialist
set, admission maps to the document tool, scheduling to search only,
pharmacy to search plus the document tool, billing to the document tool,
each with its fixed persona instruction, and any identifier outside the set
falls back to the generic helpful-assistant persona with an empty tool
set. -/
theorem c9_dispatch_total :
    agentConfig (some AgentType.ADMISSION) =
      (admissionInstruction, [Tool.functionDeclarations ["generate_document"]]) ∧
    agentConfig (some AgentType.SCHEDULING) =
      (schedulingInstruction, [Tool.googleSearch]) ∧
    agentConfig (some AgentType.PHARMACY) =
      (pharmacyInstruction, [Tool.googleSearch, Tool.functionDeclarations ["generate_document"]]) ∧
    agentConfig (some AgentType.BILLING) =
      (billingInstruction, [Tool.functionDeclarations ["generate_document"]]) ∧
    ∀ a : Option String, (∀ sp ∈ specialistAgents, a ≠ some sp) →
      agentConfig a = (genericInstruction, []) := by
  refine ⟨by decide, by decide, by decide, by decide, ?_⟩
  intro a ha
  have h1 : ¬(a = some AgentType.ADMISSION) := ha AgentType.ADMISSION (by decide)
  have h2 : ¬(a = some AgentType.SCHEDULING) := ha AgentType.SCHEDULING (by decide)
  have h3 : ¬(a = some AgentType.PHARMACY) := ha AgentType.PHARMACY (by decide)
  have h4 : ¬(a = some AgentType.BILLING) := ha AgentType.BILLING (by decide)
  simp [agentConfig, h1, h2, h3, h4]

/-- C9 witness: the orchestrator identifier is outside the specialist set
and receives the generic persona with no tools. -/
theorem c9_dispatch_total_witness :
    agentConfig (some "Central Manager") = (genericInstruction, []) :=
  c9_dispatch_total.2.2.2.2 (some "Central Manager") (by decide)

/-- Evaluation of handleSend when the guard passes (nonempty trimmed input,
no turn in flight): the full resulting state. -/
theorem handleSend_completed (o : OrchOutcome) (e : ExecOutcome) (s : AppState)
    (h1 : jsTrim s.input ≠ "") (h2 : s.isLoading = false) :
    handleSend o e s =
      (let delegation := orchestrateRequest s.input o
       let response := executeAgentTask delegation.agent s.input (renderHistory s.messages) e
       { messages :=
           (s.messages ++
             [{ role := "user", text := s.input, sender := some "User",
                documentData := none, groundingSources := none }]) ++
             [{ role := "model", text := response.text, sender := delegation.agent,
                documentData := response.document,
                groundingSources := response.groundingSources }],
         input := "",
         isLoading := false,
         currentAgent := delegation.agent,
         auditLogs :=
           (s.auditLogs ++
             [{ agent := some AgentType.ORCHESTRATOR,
                action := "Delegated to " ++ jsStr delegation.agent,
                status := "SUCCESS" }]) ++
             [{ agent := delegation.agent,
                action := match response.document with
                          | some d => "Generated " ++ d.type
                          | none => "Responded to query",
                status := "SUCCESS" }] }) := by
  rw [handleSend, if_neg]
  · rfl
  · simp [h1, h2]

/-- Evaluation of handleSend when the guard rejects the turn: the state is
returned unchanged. -/
theorem handleSend_guard (o : OrchOutcome) (e : ExecOutcome) (s : AppState)
    (h : jsTrim s.input = "" ∨ s.isLoading = true) :
    handleSend o e s = s := by
  rw [handleSend, if_pos h]

/-- handleSend leaves no turn in flight when none was in flight before. -/
theorem handleSend_isLoading (o : OrchOutcome) (e : ExecOutcome) (s : AppState)
    (h2 : s.isLoading = false) :
    (handleSend o e s).isLoading = false := by
  by_cases h : jsTrim s.input = "" ∨ s.isLoading = true
  · rw [handleSend_guard o e s h]; exact h2
  · push_neg at h
    rw [handleSend_completed o e s h.1 h2]

/-- A completed turn appends exactly the delegation entry and the execution
entry to the audit log, in that order. -/
theorem handleSend_auditLogs (o : OrchOutcome) (e : ExecOutcome) (s : AppState)
    (h1 : jsTrim s.input ≠ "") (h2 : s.isLoading = false) :
    (handleSend o e s).auditLogs =
      s.auditLogs ++
        [{ agent := some AgentType.ORCHESTRATOR,
           action := "Delegated to " ++ jsStr (orchestrateRequest s.input o).agent,
           status := "SUCCESS" },
         { agent := (orchestrateRequest s.input o).agent,
           action := match (executeAgentTask (orchestrateRequest s.input o).agent s.input
                             (renderHistory s.messages) e).document with
                     | some d => "Generated " ++ d.type
                     | none => "Responded to query",
           status := "SUCCESS" }] := by
  rw [handleSend_completed o e s h1 h2]
  simp

/-- A completed turn appends exactly the user message and the agent message
to the message list, in that order; the agent message carries the reply of
the executor run with the delegated agent. -/
theorem handleSend_messages (o : OrchOutcome) (e : ExecOutcome) (s : AppState)
    (h1 : jsTrim s.input ≠ "") (h2 : s.isLoading = false) :
    (handleSend o e s).messages =
      s.messages ++
        [{ role := "user", text := s.input, sender := some "User",
           documentData := none, groundingSources := none },
         { role := "model",
           text := (executeAgentTask (orchestrateRequest s.input o).agent s.input
                     (renderHistory s.messages) e).text,
           sender := (orchestrateRequest s.input o).agent,
           documentData := (executeAgentTask (orchestrateRequest s.input o).agent s.input
                             (renderHistory s.messages) e).document,
           groundingSources := (executeAgentTask (orchestrateRequest s.input o).agent s.input
                                 (renderHistory s.messages) e).groundingSources }] := by
  rw [handleSend_completed o e s h1 h2]
  simp

/-- The audit log of handleSend always extends the previous audit log. -/
theorem handleSend_audit_extends (o : OrchOutcome) (e : ExecOutcome) (s : AppState) :
    ∃ tail, (handleSend o e s).auditLogs = s.auditLogs ++ tail := by
  by_cases h : jsTrim s.input = "" ∨ s.isLoading = true
  · exact ⟨[], by rw [handleSend_guard o e s h]; simp⟩
  · push_neg at h
    exact ⟨_, handleSend_auditLogs o e s h.1 (by simpa using h.2)⟩

/-- One turn adds exactly two audit entries when its input survives the
guard and no turn is in flight. -/
theorem runTurn_audit_length (t : TurnInput) (s : AppState)
    (ht : jsTrim t.input ≠ "") (hs : s.isLoading = false) :
    (runTurn t s).auditLogs.length = s.auditLogs.length + 2 := by
  rw [runTurn, handleSend_auditLogs t.orch t.exec { s with input := t.input } ht hs]
  simp

/-- Running one turn leaves no turn in flight when none was in flight. -/
theorem runTurn_isLoading (t : TurnInput) (s : AppState) (hs : s.isLoading = false) :
    (runTurn t s).isLoading = false :=
  handleSend_isLoading t.orch t.exec { s with input := t.input } hs

/-- After running a list of turns whose inputs all survive the guard, the
audit log has grown by exactly two entries per turn. -/
theorem runTurns_audit_length (ts : List TurnInput) :
    ∀ s : AppState, s.isLoading = false → (∀ t ∈ ts, jsTrim t.input ≠ "") →
      (runTurns ts s).auditLogs.length = s.auditLogs.length + 2 * ts.length := by
  induction ts with
  | nil => intro s _ _; simp [runTurns]
  | cons t ts ih =>
      intro s hs hts
      have h0 : jsTrim t.input ≠ "" := hts t (List.mem_cons_self t ts)
      have e1 : runTurns (t :: ts) s = runTurns ts (runTurn t s) := rfl
      rw [e1, ih (runTurn t s) (runTurn_isLoading t s hs)
            (fun u hu => hts u (List.mem_cons_of_mem t hu)),
          runTurn_audit_length t s h0 hs]
      simp [List.length_cons]
      ring

/-- handleSend preserves the all-SUCCESS invariant of the audit log. -/
theorem handleSend_status (o : OrchOutcome) (e : ExecOutcome) (s : AppState)
    (hs : ∀ en ∈ s.auditLogs, en.status = "SUCCESS") :
    ∀ en ∈ (handleSend o e s).auditLogs, en.status = "SUCCESS" := by
  by_cases h : jsTrim s.input = "" ∨ s.isLoading = true
  · rw [handleSend_guard o e s h]; exact hs
  · push_neg at h
    rw [handleSend_auditLogs o e s h.1 (by simpa using h.2)]
    intro en hen
    rcases List.mem_append.mp hen with hmem | hmem
    · exact hs en hmem
    · simp at hmem
      rcases hmem with h' | h' <;> subst h' <;> rfl

/-- Running any list of turns preserves the all-SUCCESS invariant of the
audit log. -/
theorem runTurns_status (ts : List TurnInput) :
    ∀ s : AppState, (∀ en ∈ s.auditLogs, en.status = "SUCCESS") →
      ∀ en ∈ (runTurns ts s).auditLogs, en.status = "SUCCESS" := by
  induction ts with
  | nil => intro s hs; exact hs
  | cons t ts ih =>
      intro s hs
      exact ih (runTurn t s) (handleSend_status t.orch t.exec { s with input := t.input } hs)

set_option maxRecDepth 8192 in
/-- C6 counterexample: when the router backend returns well-formed JSON
naming the orchestrator identifier, the turn completes and the appended
agent-reply message carries the orchestrator identifier as sender, so the
sender is not always a specialist. -/
theorem c6_orchestrator_sender_cex :
    ((handleSend (OrchOutcome.json (some "Central Manager") (some "self"))
        (ExecOutcome.ok { groundingChunks := none, functionCalls := none, text := some "Hello" })
        { initState with input := "Check my claim" }).messages.getLast?).map
      (fun m => (m.role, m.sender)) = some ("model", some AgentType.ORCHESTRATOR) := by
  decide

set_option maxRecDepth 8192 in
/-- C6 amended: the agent-reply message appended by a completed turn always
carries as sender exactly the agent identifier the router returned for that
turn, the identifier the executor actually ran with; whenever that
identifier is one of the enumerated specialists, the sender is that
specialist and in particular never the orchestrator identifier. Because the
router does not validate its backend output, the sender can equal the
orchestrator identifier (or an arbitrary string) exactly when the backend
JSON names it. -/
theorem c6_sender_is_executor (o : OrchOutcome) (e : ExecOutcome) (s : AppState)
    (h1 : jsTrim s.input ≠ "") (h2 : s.isLoading = false) :
    ∃ m : ChatMessage,
      (handleSend o e s).messages =
        s.messages ++
          [{ role := "user", text := s.input, sender := some "User",
             documentData := none, groundingSources := none }, m] ∧
      m.role = "model" ∧
      m.sender = (orchestrateRequest s.input o).agent ∧
      ∀ sp, (orchestrateRequest s.input o).agent = some sp → sp ∈ specialistAgents →
        m.sender ≠ some AgentType.ORCHESTRATOR := by
  refine ⟨_, handleSend_messages o e s h1 h2, rfl, rfl, ?_⟩
  intro sp hsp hmem hc
  have hc' : (orchestrateRequest s.input o).agent = some AgentType.ORCHESTRATOR := hc
  have hsame : sp = AgentType.ORCHESTRATOR := Option.some.inj (hsp.symm.trans hc')
  subst hsame
  exact absurd hmem (by decide)

set_option maxRecDepth 8192 in
/-- C6 witness: a completed turn delegated to the admission agent appends a
user message and an agent-reply message whose sender is the admission
agent. -/
theorem c6_sender_is_executor_witness :
    ∃ m : ChatMessage,
      (handleSend (OrchOutcome.json (some AgentType.ADMISSION) (some "registration"))
          (ExecOutcome.ok { groundingChunks := none, functionCalls := none, text := some "Done." })
          { initState with input := "Register patient" }).messages =
        ({ initState with input := "Register patient" } : AppState).messages ++
          [{ role := "user", text := "Register patient", sender := some "User",
             documentData := none, groundingSources := none }, m] ∧
      m.role = "model" ∧
      m.sender = (orchestrateRequest "Register patient"
                   (OrchOutcome.json (some AgentType.ADMISSION) (some "registration"))).agent ∧
      ∀ sp, (orchestrateRequest "Register patient"
              (OrchOutcome.json (some AgentType.ADMISSION) (some "registration"))).agent = some sp →
        sp ∈ specialistAgents →
        m.sender ≠ some AgentType.ORCHESTRATOR :=
  c6_sender_is_executor
    (OrchOutcome.json (some AgentType.ADMISSION) (some "registration"))
    (ExecOutcome.ok { groundingChunks := none, functionCalls := none, text := some "Done." })
    { initState with input := "Register patient" } (by decide) rfl

/-- C7 confirmed: the audit log is append-only (every handleSend run leaves
the previous entries untouched and only appends), a completed turn appends
exactly two entries, the delegation entry recorded by the orchestrator and
then the execution entry recorded under the delegated agent, and a session
of N completed turns from the initial state has exactly 2N entries, in turn
order. -/
theorem c7_audit_two_per_turn :
    (∀ (o : OrchOutcome) (e : ExecOutcome) (s : AppState),
       ∃ tail, (handleSend o e s).auditLogs = s.auditLogs ++ tail) ∧
    (∀ (o : OrchOutcome) (e : ExecOutcome) (s : AppState),
       jsTrim s.input ≠ "" → s.isLoading = false →
       ∃ d x, (handleSend o e s).auditLogs = s.auditLogs ++ [d, x] ∧
         d.agent = some AgentType.ORCHESTRATOR ∧ d.status = "SUCCESS" ∧
         d.action = "Delegated to " ++ jsStr (orchestrateRequest s.input o).agent ∧
         x.agent = (orchestrateRequest s.input o).agent ∧ x.status = "SUCCESS") ∧
    (∀ ts : List TurnInput, (∀ t ∈ ts, jsTrim t.input ≠ "") →
       (runTurns ts initState).auditLogs.length = 2 * ts.length) := by
  refine ⟨handleSend_audit_extends, ?_, ?_⟩
  · intro o e s h1 h2
    exact ⟨_, _, handleSend_auditLogs o e s h1 h2, rfl, rfl, rfl, rfl, rfl⟩
  · intro ts hts
    simpa [initState] using runTurns_audit_length ts initState rfl hts

set_option maxRecDepth 8192 in
/-- C7 witness: one completed billing turn from the initial state appends
its delegation and execution entries and leaves an audit log of length
two. -/
theorem c7_audit_two_per_turn_witness :
    (∃ d x, (handleSend (OrchOutcome.json (some AgentType.BILLING) (some "invoice"))
          (ExecOutcome.ok { groundingChunks := none, functionCalls := none, text := some "Done." })
          { initState with input := "Buat faktur" }).auditLogs =
        ({ initState with input := "Buat faktur" } : AppState).auditLogs ++ [d, x] ∧
        d.agent = some AgentType.ORCHESTRATOR ∧ d.status = "SUCCESS" ∧
        d.action = "Delegated to " ++ jsStr (orchestrateRequest "Buat faktur"
                     (OrchOutcome.json (some AgentType.BILLING) (some "invoice"))).agent ∧
        x.agent = (orchestrateRequest "Buat faktur"
                    (OrchOutcome.json (some AgentType.BILLING) (some "invoice"))).agent ∧
        x.status = "SUCCESS") ∧
    (runTurns [{ input := "Buat faktur",
                 orch := OrchOutcome.json (some AgentType.BILLING) (some "invoice"),
                 exec := ExecOutcome.ok { groundingChunks := none, functionCalls := none,
                                          text := some "Done." } }]
        initState).auditLogs.length =
      2 * List.length
            [({ input := "Buat faktur",
                orch := OrchOutcome.json (some AgentType.BILLING) (some "invoice"),
                exec := ExecOutcome.ok { groundingChunks := none, functionCalls := none,
                                         text := some "Done." } } : TurnInput)] := by
  constructor
  · exact c7_audit_two_per_turn.2.1
      (OrchOutcome.json (some AgentType.BILLING) (some "invoice"))
      (ExecOutcome.ok { groundingChunks := none, functionCalls := none, text := some "Done." })
      { initState with input := "Buat faktur" } (by decide) rfl
  · refine c7_audit_two_per_turn.2.2 _ ?_
    intro t ht
    simp at ht
    subst ht
    decide

/-- C10 confirmed: every audit entry ever appended over any session has
status SUCCESS, so the PENDING and DENIED statuses declared by the
AuditLogEntry type are never produced by any operation of the
controller. -/
theorem c10_status_always_success (ts : List TurnInput) :
    ((runTurns ts initState).auditLogs.all (fun en => en.status == "SUCCESS")) = true := by
  rw [List.all_eq_true]
  intro en hen
  exact beq_iff_eq.mpr (runTurns_status ts initState (by simp [initState]) en hen)
